import Mathlib

/-!
Shallow embedding of the autorestartpod operator controller.

The repository holds two variants of the reconciler:
- `internal/controller/autorestartpod_controller.go` (embedded as `ReconcileA`), and
- an unnamed controller source (src/unnamed/part_000, embedded as `ReconcileB`)
  which carries the sub-minute due-now tolerance, a status update performed before
  pod listing, a bookkeeping status write on the not-due path, and a recomputation
  of the next run time after a restart.

Timestamps and durations are integers in nanoseconds, matching the Go `time`
package. The cron library (robfig/cron), the time-zone database and the
Kubernetes client are collaborators outside the repository: they enter the model
as an explicit environment of call outcomes, and the contract of
`cron.Schedule.Next` (next activation strictly after its argument) is the
predicate `Schedule.WellFormed`.
-/

namespace AutoRestart

abbrev Timestamp := Int

abbrev Duration := Int

/-- Go `time.Minute`, in nanoseconds. -/
def timeMinute : Duration := 60000000000

/-- A parsed cron schedule (`cron.Schedule`): `next t` is the activation time the
library reports for the expression when asked from instant `t`. -/
structure Schedule where
  next : Timestamp → Timestamp

/-- Contract of `cron.Schedule.Next` as the spec records it: the returned
activation time is strictly after the queried instant. -/
def Schedule.WellFormed (s : Schedule) : Prop :=
  ∀ t : Timestamp, t < s.next t

/-- A pod, identified by name; only identity matters to the controller. -/
structure Pod where
  name : String
deriving DecidableEq, Repr

/-- A resolved label selector (`labels.Selector`), opaque to the controller. -/
structure Selector where
  id : String
deriving DecidableEq, Repr

/-- The unresolved `metav1.LabelSelector` carried by the resource spec, opaque. -/
abbrev LabelSelector := String

/-- `AutoRestartPodSpec` (api/v1): schedule string, selector, optional zone. -/
structure AutoRestartPodSpec where
  schedule : String
  selector : LabelSelector
  timeZone : String

/-- `AutoRestartPodStatus` (api/v1): the last recorded restart time, if any. -/
structure AutoRestartPodStatus where
  lastRestartTime : Option Timestamp

/-- The `AutoRestartPod` custom resource. -/
structure AutoRestartPodObj where
  spec : AutoRestartPodSpec
  status : AutoRestartPodStatus

/-- Error taxonomy of one reconciliation attempt. -/
inductive Err where
  | getErr
  | scheduleParseErr
  | timeZoneErr
  | selectorErr
  | listErr
  | statusUpdateErr
deriving DecidableEq, Repr

/-- Outcomes of every collaborator call one `Reconcile` invocation can make,
together with the wall-clock instant `time.Now()` observes. `listPods` receives
the resolved selector when resolution succeeded and `none` (the Go nil selector)
when it failed, mirroring `selector, _ := metav1.LabelSelectorAsSelector(...)`. -/
structure Env where
  getResult : Except Err AutoRestartPodObj
  parse5 : String → Option Schedule
  parse6 : String → Option Schedule
  loadLocation : String → Bool
  now : Timestamp
  resolveSelector : LabelSelector → Except Err Selector
  listPods : Option Selector → Except Err (List Pod)
  deleteOk : Pod → Bool
  statusUpdateOk : Bool

/-- `parseCronSchedule` (identical in both controller variants): try the
5-field grammar (`cron.Minute|Hour|Dom|Month|Dow|Descriptor`) first and return
its result on success; only on failure try the 6-field grammar with a leading
seconds field; when both fail, report the parse error. The two parsers built
by `cron.NewParser` are the arguments. -/
def parseCronSchedule (parse5 parse6 : String → Option Schedule)
    (schedule : String) : Except Err Schedule :=
  match parse5 schedule with
  | some sch => .ok sch
  | none =>
    match parse6 schedule with
    | some sch => .ok sch
    | none => .error .scheduleParseErr

/-- Observable outcome of one `Reconcile` invocation: the returned value
(requeue duration or error), whether `r.List` was called, the pods `r.Delete`
was called on (in order), those deletions the client acknowledged, and the
acknowledged `Status().Update` writes of `lastRestartTime`. -/
structure Outcome where
  result : Except Err Duration
  listed : Bool
  deletesAttempted : List Pod
  deletesSucceeded : List Pod
  statusCommits : List Timestamp

/-- `return ctrl.Result{}, err`: an error return with no side effect recorded. -/
def errOutcome (e : Err) : Outcome :=
  { result := .error e, listed := false, deletesAttempted := [],
    deletesSucceeded := [], statusCommits := [] }

/-- part_000 line 93:
`needsRestart := !nextRun.After(now) || nextRun.Sub(now) < time.Minute`. -/
def needsRestart (schedule : Schedule) (now : Timestamp) : Bool :=
  !(decide (now < schedule.next now)) || decide (schedule.next now - now < timeMinute)

/-- `Reconcile` of `internal/controller/autorestartpod_controller.go`: fetch,
parse the schedule, resolve the zone, and if the next run is still in the
future requeue for it; otherwise list the matching pods, delete each one
(logging per-pod failures), write the status, and requeue for
`time.Until(nextRun)` (wall time does not advance in the model, so this is
`nextRun - now`). -/
def ReconcileA (env : Env) : Outcome :=
  match env.getResult with
  | .error e => errOutcome e
  | .ok obj =>
    match parseCronSchedule env.parse5 env.parse6 obj.spec.schedule with
    | .error e => errOutcome e
    | .ok schedule =>
      if (obj.spec.timeZone != "") && !env.loadLocation obj.spec.timeZone then
        errOutcome .timeZoneErr
      else
        if env.now < schedule.next env.now then
          { result := .ok (schedule.next env.now - env.now), listed := false,
            deletesAttempted := [], deletesSucceeded := [], statusCommits := [] }
        else
          match env.listPods (env.resolveSelector obj.spec.selector).toOption with
          | .error e =>
            { result := .error e, listed := true, deletesAttempted := [],
              deletesSucceeded := [], statusCommits := [] }
          | .ok pods =>
            if env.statusUpdateOk then
              { result := .ok (schedule.next env.now - env.now), listed := true,
                deletesAttempted := pods,
                deletesSucceeded := pods.filter env.deleteOk,
                statusCommits := [env.now] }
            else
              { result := .error .statusUpdateErr, listed := true,
                deletesAttempted := pods,
                deletesSucceeded := pods.filter env.deleteOk,
                statusCommits := [] }

/-- `Reconcile` of src/unnamed/part_000: fetch, parse the schedule, resolve the
zone, evaluate `needsRestart` with the sub-minute tolerance; on the restart path
write the status first, then list and delete each matching pod (per-pod failures
only logged), and requeue for the recomputed `schedule.Next(now) - now`; on the
not-due path write the status once when `lastRestartTime` is unset, and requeue
for `nextRun - now`. -/
def ReconcileB (env : Env) : Outcome :=
  match env.getResult with
  | .error e => errOutcome e
  | .ok obj =>
    match parseCronSchedule env.parse5 env.parse6 obj.spec.schedule with
    | .error e => errOutcome e
    | .ok schedule =>
      if (obj.spec.timeZone != "") && !env.loadLocation obj.spec.timeZone then
        errOutcome .timeZoneErr
      else
        if needsRestart schedule env.now then
          if env.statusUpdateOk then
            match env.listPods (env.resolveSelector obj.spec.selector).toOption with
            | .error e =>
              { result := .error e, listed := true, deletesAttempted := [],
                deletesSucceeded := [], statusCommits := [env.now] }
            | .ok pods =>
              { result := .ok (schedule.next env.now - env.now), listed := true,
                deletesAttempted := pods,
                deletesSucceeded := pods.filter env.deleteOk,
                statusCommits := [env.now] }
          else
            errOutcome .statusUpdateErr
        else
          match obj.status.lastRestartTime with
          | none =>
            if env.statusUpdateOk then
              { result := .ok (schedule.next env.now - env.now), listed := false,
                deletesAttempted := [], deletesSucceeded := [],
                statusCommits := [env.now] }
            else
              errOutcome .statusUpdateErr
          | some _ =>
            { result := .ok (schedule.next env.now - env.now), listed := false,
              deletesAttempted := [], deletesSucceeded := [], statusCommits := [] }

/-- Per-step collaborator outcomes for a reconciliation of one resource whose
status is threaded between steps: everything in `Env` except the fetched
status. -/
structure StepEnv where
  spec : AutoRestartPodSpec
  parse5 : String → Option Schedule
  parse6 : String → Option Schedule
  loadLocation : String → Bool
  now : Timestamp
  resolveSelector : LabelSelector → Except Err Selector
  listPods : Option Selector → Except Err (List Pod)
  deleteOk : Pod → Bool
  statusUpdateOk : Bool

/-- Build the environment of one step from the persisted status. -/
def mkEnv (se : StepEnv) (st : Option Timestamp) : Env :=
  { getResult := .ok { spec := se.spec, status := { lastRestartTime := st } },
    parse5 := se.parse5, parse6 := se.parse6, loadLocation := se.loadLocation,
    now := se.now, resolveSelector := se.resolveSelector,
    listPods := se.listPods, deleteOk := se.deleteOk,
    statusUpdateOk := se.statusUpdateOk }

/-- Persisted `status.lastRestartTime` after one part_000 reconciliation. -/
def stepB (se : StepEnv) (st : Option Timestamp) : Option Timestamp :=
  match (ReconcileB (mkEnv se st)).statusCommits with
  | [] => st
  | t :: _ => some t

/-- The persisted statuses along a sequence of reconciliations, starting value
included. -/
def statusTrace : List StepEnv → Option Timestamp → List (Option Timestamp)
  | [], st => [st]
  | se :: rest, st => st :: statusTrace rest (stepB se st)

/-- Order on persisted statuses: unset precedes everything, set values compare
by time; a set value never becomes unset. -/
def statusLE : Option Timestamp → Option Timestamp → Prop
  | none, _ => True
  | some _, none => False
  | some t, some u => t ≤ u

theorem statusLE_refl (st : Option Timestamp) : statusLE st st := by
  cases st <;> simp [statusLE]

theorem needsRestart_iff (schedule : Schedule) (now : Timestamp) :
    needsRestart schedule now = true ↔
      (¬ now < schedule.next now ∨ schedule.next now - now < timeMinute) := by
  simp [needsRestart]

/-- Reduction of `ReconcileB` past the fetch, parse and time-zone guards. -/
theorem ReconcileB_eq (env : Env) (obj : AutoRestartPodObj) (schedule : Schedule)
    (hget : env.getResult = .ok obj)
    (hparse : parseCronSchedule env.parse5 env.parse6 obj.spec.schedule = .ok schedule)
    (htz : obj.spec.timeZone = "" ∨ env.loadLocation obj.spec.timeZone = true) :
    ReconcileB env =
      if needsRestart schedule env.now then
        if env.statusUpdateOk then
          match env.listPods (env.resolveSelector obj.spec.selector).toOption with
          | .error e =>
            { result := .error e, listed := true, deletesAttempted := [],
              deletesSucceeded := [], statusCommits := [env.now] }
          | .ok pods =>
            { result := .ok (schedule.next env.now - env.now), listed := true,
              deletesAttempted := pods,
              deletesSucceeded := pods.filter env.deleteOk,
              statusCommits := [env.now] }
        else errOutcome .statusUpdateErr
      else
        match obj.status.lastRestartTime with
        | none =>
          if env.statusUpdateOk then
            { result := .ok (schedule.next env.now - env.now), listed := false,
              deletesAttempted := [], deletesSucceeded := [],
              statusCommits := [env.now] }
          else errOutcome .statusUpdateErr
        | some _ =>
          { result := .ok (schedule.next env.now - env.now), listed := false,
            deletesAttempted := [], deletesSucceeded := [], statusCommits := [] } := by
  have htzb : ((obj.spec.timeZone != "") && !env.loadLocation obj.spec.timeZone) = false := by
    rcases htz with h | h <;> simp [h]
  simp only [ReconcileB, hget, hparse, htzb, Bool.false_eq_true, if_false]

/-- Reduction of `ReconcileA` past the fetch, parse and time-zone guards. -/
theorem ReconcileA_eq (env : Env) (obj : AutoRestartPodObj) (schedule : Schedule)
    (hget : env.getResult = .ok obj)
    (hparse : parseCronSchedule env.parse5 env.parse6 obj.spec.schedule = .ok schedule)
    (htz : obj.spec.timeZone = "" ∨ env.loadLocation obj.spec.timeZone = true) :
    ReconcileA env =
      if env.now < schedule.next env.now then
        { result := .ok (schedule.next env.now - env.now), listed := false,
          deletesAttempted := [], deletesSucceeded := [], statusCommits := [] }
      else
        match env.listPods (env.resolveSelector obj.spec.selector).toOption with
        | .error e =>
          { result := .error e, listed := true, deletesAttempted := [],
            deletesSucceeded := [], statusCommits := [] }
        | .ok pods =>
          if env.statusUpdateOk then
            { result := .ok (schedule.next env.now - env.now), listed := true,
              deletesAttempted := pods,
              deletesSucceeded := pods.filter env.deleteOk,
              statusCommits := [env.now] }
          else
            { result := .error .statusUpdateErr, listed := true,
              deletesAttempted := pods,
              deletesSucceeded := pods.filter env.deleteOk,
              statusCommits := [] } := by
  have htzb : ((obj.spec.timeZone != "") && !env.loadLocation obj.spec.timeZone) = false := by
    rcases htz with h | h <;> simp [h]
  simp only [ReconcileA, hget, hparse, htzb, Bool.false_eq_true, if_false]

/-- Claim C1: once the resource is fetched, the schedule parsed, the time zone
resolved and the status write acknowledged, the part_000 reconciler takes the
restart path (observable as the pod listing being attempted) exactly when
`nextRun` is not strictly after `now` or `nextRun - now` is under one minute;
in particular inputs with `now < nextRun` but `nextRun - now` under a minute
still restart. -/
theorem c1_restart_decision_subminute_tolerance (env : Env)
    (obj : AutoRestartPodObj) (schedule : Schedule)
    (hget : env.getResult = .ok obj)
    (hparse : parseCronSchedule env.parse5 env.parse6 obj.spec.schedule = .ok schedule)
    (htz : obj.spec.timeZone = "" ∨ env.loadLocation obj.spec.timeZone = true)
    (hupd : env.statusUpdateOk = true) :
    (ReconcileB env).listed = true ↔
      (¬ env.now < schedule.next env.now ∨
        schedule.next env.now - env.now < timeMinute) := by
  rw [ReconcileB_eq env obj schedule hget hparse htz]
  rcases Bool.eq_false_or_eq_true (needsRestart schedule env.now) with hnr | hnr
  · have hrhs := (needsRestart_iff schedule env.now).mp hnr
    rcases hl : env.listPods (env.resolveSelector obj.spec.selector).toOption with e | pods <;>
      simp [hnr, hupd, hl] <;> simpa using hrhs
  · have hrhs : ¬(¬ env.now < schedule.next env.now ∨
        schedule.next env.now - env.now < timeMinute) := by
      intro h
      rw [← needsRestart_iff] at h
      simp [hnr] at h
    push_neg at hrhs
    rcases hst : obj.status.lastRestartTime with _ | t <;>
      simp [hnr, hst, hupd] <;> exact hrhs

/-- A schedule whose next activation is always one second ahead, as the cron
library yields for an every-second expression such as the test suite uses. -/
def oneSecSched : Schedule where
  next := fun t => t + 1000000000

/-- A schedule whose next activation is two minutes ahead. -/
def twoMinSched : Schedule where
  next := fun t => t + 120000000000

/-- Concrete resource inside the sub-minute window, last restart recorded. -/
def wObjC1 : AutoRestartPodObj :=
  { spec := { schedule := "* 0/5 * * * ?", selector := "app=nginx", timeZone := "" },
    status := { lastRestartTime := some 0 } }

/-- Concrete environment: 6-field parse succeeds, one pod matches, all calls
are acknowledged. -/
def wEnvC1 : Env :=
  { getResult := .ok wObjC1, parse5 := fun _ => none,
    parse6 := fun _ => some oneSecSched,
    loadLocation := fun _ => true, now := 0,
    resolveSelector := fun _ => .ok { id := "app=nginx" },
    listPods := fun _ => .ok [{ name := "nginx-1" }],
    deleteOk := fun _ => true, statusUpdateOk := true }

/-- Witness for C1 at an input with `now < nextRun` yet inside the sub-minute
window: the restart path is taken. -/
theorem c1_witness :
    ((0 : Int) < oneSecSched.next 0 ∧ oneSecSched.next 0 - 0 < timeMinute) ∧
    (ReconcileB wEnvC1).listed = true := by
  refine ⟨⟨by decide, by decide⟩, ?_⟩
  exact (c1_restart_decision_subminute_tolerance wEnvC1 wObjC1 oneSecSched rfl rfl
    (Or.inl rfl) rfl).mpr (Or.inr (by decide))

/-- When the part_000 reconciler returns a value, the fetch, the parse and the
time-zone resolution must all have succeeded. -/
theorem ReconcileB_ok_inv (env : Env) (d : Duration)
    (hok : (ReconcileB env).result = .ok d) :
    ∃ obj schedule, env.getResult = .ok obj ∧
      parseCronSchedule env.parse5 env.parse6 obj.spec.schedule = .ok schedule ∧
      (obj.spec.timeZone = "" ∨ env.loadLocation obj.spec.timeZone = true) := by
  unfold ReconcileB at hok
  split at hok
  · simp [errOutcome] at hok
  · rename_i obj hg
    split at hok
    · simp [errOutcome] at hok
    · rename_i schedule hp
      split at hok
      · simp [errOutcome] at hok
      · rename_i htzb
        refine ⟨obj, schedule, hg, hp, ?_⟩
        rcases Bool.eq_false_or_eq_true (obj.spec.timeZone != "") with h | h
        · rcases Bool.eq_false_or_eq_true (env.loadLocation obj.spec.timeZone) with h2 | h2
          · exact Or.inr h2
          · exact absurd (by simp [h, h2]) htzb
        · exact Or.inl (by simpa using h)

/-- Claim C2: whenever every schedule the cron parsers can produce satisfies
the library contract (next activation strictly after the queried instant), a
non-error invocation of the part_000 reconciler returns a strictly positive
requeue duration — on the restart path because the recomputed next run is
strictly in the future, on the not-due path because it is at least a minute
away. -/
theorem c2_requeue_strictly_positive (env : Env)
    (h5 : ∀ s sch, env.parse5 s = some sch → sch.WellFormed)
    (h6 : ∀ s sch, env.parse6 s = some sch → sch.WellFormed)
    (d : Duration) (hok : (ReconcileB env).result = .ok d) :
    0 < d := by
  obtain ⟨obj, schedule, hg, hp, htz⟩ := ReconcileB_ok_inv env d hok
  have hwf : schedule.WellFormed := by
    unfold parseCronSchedule at hp
    rcases h5' : env.parse5 obj.spec.schedule with _ | s1
    · rcases h6' : env.parse6 obj.spec.schedule with _ | s2
      · simp [h5', h6'] at hp
      · simp only [h5', h6'] at hp
        obtain rfl : s2 = schedule := by simpa using hp
        exact h6 _ _ h6'
    · simp only [h5'] at hp
      obtain rfl : s1 = schedule := by simpa using hp
      exact h5 _ _ h5'
  have hmin : (0 : Int) < timeMinute := by norm_num [timeMinute]
  have hnext := hwf env.now
  rw [ReconcileB_eq env obj schedule hg hp htz] at hok
  rcases Bool.eq_false_or_eq_true (needsRestart schedule env.now) with hnr | hnr
  · rcases Bool.eq_false_or_eq_true env.statusUpdateOk with hu | hu
    · rcases hl : env.listPods (env.resolveSelector obj.spec.selector).toOption with e | pods
      · simp [hnr, hu, hl] at hok
      · simp [hnr, hu, hl] at hok
        linarith
    · simp [hnr, hu, errOutcome] at hok
  · have h := hnr
    simp [needsRestart] at h
    rcases hst : obj.status.lastRestartTime with _ | t
    · rcases Bool.eq_false_or_eq_true env.statusUpdateOk with hu | hu
      · simp [hnr, hst, hu] at hok
        linarith [h.2]
      · simp [hnr, hst, hu, errOutcome] at hok
    · simp [hnr, hst] at hok
      linarith [h.2]

/-- Witness for C2 at the concrete sub-minute environment: the returned requeue
duration is one second, strictly positive. -/
theorem c2_witness : (0 : Int) < 1000000000 :=
  c2_requeue_strictly_positive wEnvC1
    (fun _ _ h => by simp [wEnvC1] at h)
    (fun _ sch h => by
      obtain rfl : oneSecSched = sch := by simpa [wEnvC1] using h
      intro t
      show t < t + 1000000000
      linarith)
    1000000000 rfl

/-- Claim C3: when no restart is due and `status.lastRestartTime` is unset, the
part_000 reconciler commits `lastRestartTime = now` as bookkeeping, deletes no
pod, never lists, and completes returning the next-run requeue. -/
theorem c3_unset_status_bookkeeping (env : Env) (obj : AutoRestartPodObj)
    (schedule : Schedule)
    (hget : env.getResult = .ok obj)
    (hparse : parseCronSchedule env.parse5 env.parse6 obj.spec.schedule = .ok schedule)
    (htz : obj.spec.timeZone = "" ∨ env.loadLocation obj.spec.timeZone = true)
    (hnr : needsRestart schedule env.now = false)
    (hunset : obj.status.lastRestartTime = none)
    (hupd : env.statusUpdateOk = true) :
    (ReconcileB env).statusCommits = [env.now] ∧
    (ReconcileB env).deletesAttempted = [] ∧
    (ReconcileB env).listed = false ∧
    (ReconcileB env).result = .ok (schedule.next env.now - env.now) := by
  rw [ReconcileB_eq env obj schedule hget hparse htz]
  simp [hnr, hunset, hupd]

/-- Concrete resource with unset status, schedule two minutes away. -/
def wObjC3 : AutoRestartPodObj :=
  { spec := { schedule := "*/2 * * * *", selector := "app=web", timeZone := "" },
    status := { lastRestartTime := none } }

/-- Concrete environment for the bookkeeping path. -/
def wEnvC3 : Env :=
  { getResult := .ok wObjC3, parse5 := fun _ => some twoMinSched,
    parse6 := fun _ => none,
    loadLocation := fun _ => true, now := 50,
    resolveSelector := fun _ => .ok { id := "app=web" },
    listPods := fun _ => .ok [{ name := "web-1" }],
    deleteOk := fun _ => true, statusUpdateOk := true }

/-- Witness for C3: at the concrete not-due environment the status is committed
to `now = 50`, nothing is listed or deleted, and the call succeeds. -/
theorem c3_witness :
    (ReconcileB wEnvC3).statusCommits = [50] ∧
    (ReconcileB wEnvC3).deletesAttempted = [] ∧
    (ReconcileB wEnvC3).listed = false ∧
    (ReconcileB wEnvC3).result = .ok (twoMinSched.next 50 - 50) :=
  c3_unset_status_bookkeeping wEnvC3 wObjC3 twoMinSched rfl rfl (Or.inl rfl)
    (by decide) rfl rfl

/-- Resource for the C4 counterexample, schedule within the tolerance window. -/
def cObjC4 : AutoRestartPodObj :=
  { spec := { schedule := "* * * * * *", selector := "app=api", timeZone := "" },
    status := { lastRestartTime := some 0 } }

/-- Environment whose pod listing fails. -/
def cEnvC4 : Env :=
  { getResult := .ok cObjC4, parse5 := fun _ => none,
    parse6 := fun _ => some oneSecSched,
    loadLocation := fun _ => true, now := 7,
    resolveSelector := fun _ => .ok { id := "app=api" },
    listPods := fun _ => .error .listErr,
    deleteOk := fun _ => true, statusUpdateOk := true }

/-- Claim C4 counterexample: at this input the listing fails, the attempt
aborts with that error and no deletion is attempted, yet a status update HAS
already been committed (to now = 7) — state is not unchanged, refuting the
claim as stated for the part_000 reconciler. -/
theorem c4_counterexample :
    (ReconcileB cEnvC4).result = .error .listErr ∧
    (ReconcileB cEnvC4).deletesAttempted = [] ∧
    (ReconcileB cEnvC4).statusCommits = [7] := by
  refine ⟨?_, ?_, ?_⟩ <;> rfl

/-- Claim C4 amended: a pod-listing failure makes the part_000 reconciliation
abort with that error and attempt no deletion; however on the restart path the
status update has already been committed (to `now`) before the listing, so the
persisted state is not unchanged. -/
theorem c4_list_failure_aborts_after_commit (env : Env) (obj : AutoRestartPodObj)
    (schedule : Schedule) (e : Err)
    (hget : env.getResult = .ok obj)
    (hparse : parseCronSchedule env.parse5 env.parse6 obj.spec.schedule = .ok schedule)
    (htz : obj.spec.timeZone = "" ∨ env.loadLocation obj.spec.timeZone = true)
    (hnr : needsRestart schedule env.now = true)
    (hupd : env.statusUpdateOk = true)
    (hlist : env.listPods (env.resolveSelector obj.spec.selector).toOption = .error e) :
    (ReconcileB env).result = .error e ∧
    (ReconcileB env).deletesAttempted = [] ∧
    (ReconcileB env).listed = true ∧
    (ReconcileB env).statusCommits = [env.now] := by
  rw [ReconcileB_eq env obj schedule hget hparse htz]
  simp [hnr, hupd, hlist]

/-- Witness for the amended C4 at the concrete failing-listing environment. -/
theorem c4_witness :
    (ReconcileB cEnvC4).result = .error .listErr ∧
    (ReconcileB cEnvC4).deletesAttempted = [] ∧
    (ReconcileB cEnvC4).listed = true ∧
    (ReconcileB cEnvC4).statusCommits = [7] :=
  c4_list_failure_aborts_after_commit cEnvC4 cObjC4 oneSecSched .listErr rfl rfl
    (Or.inl rfl) (by decide) rfl rfl

/-- Resource whose label selector is malformed. -/
def cObjC5 : AutoRestartPodObj :=
  { spec := { schedule := "* * * * * *", selector := "bad-selector", timeZone := "" },
    status := { lastRestartTime := some 0 } }

/-- Environment where selector resolution fails; the listing call (made with
the Go nil selector, `none` here) still answers with one pod. -/
def cEnvC5 : Env :=
  { getResult := .ok cObjC5, parse5 := fun _ => none,
    parse6 := fun _ => some oneSecSched,
    loadLocation := fun _ => true, now := 0,
    resolveSelector := fun _ => .error .selectorErr,
    listPods := fun _ => .ok [{ name := "api-1" }],
    deleteOk := fun _ => true, statusUpdateOk := true }

/-- Claim C5 (code bug evidence): the controller discards the
selector-resolution error (`selector, _ := metav1.LabelSelectorAsSelector`).
At this input resolution fails, yet the reconciliation signals no error: it
proceeds to list with the nil selector, deletes the listed pod, and returns
success — the spec requires the failure to be signaled immediately with no
listing and no deletion. -/
theorem c5_selector_error_ignored :
    cEnvC5.resolveSelector cObjC5.spec.selector = .error .selectorErr ∧
    (ReconcileB cEnvC5).listed = true ∧
    (ReconcileB cEnvC5).deletesAttempted = [{ name := "api-1" }] ∧
    (ReconcileB cEnvC5).result = .ok 1000000000 := by
  refine ⟨?_, ?_, ?_, ?_⟩ <;> rfl

/-- Claim C6: `parseCronSchedule` returns the 5-field parse whenever that
grammar succeeds; only when it fails does the 6-field parse decide; when both
grammars fail the parse reports the error and the part_000 reconcile aborts
with it, having listed nothing, deleted nothing and written no status. -/
theorem c6_parse_fallback_and_error :
    (∀ (p5 p6 : String → Option Schedule) s sch,
      p5 s = some sch → parseCronSchedule p5 p6 s = .ok sch) ∧
    (∀ (p5 p6 : String → Option Schedule) s sch,
      p5 s = none → p6 s = some sch → parseCronSchedule p5 p6 s = .ok sch) ∧
    (∀ (p5 p6 : String → Option Schedule) s,
      p5 s = none → p6 s = none →
      parseCronSchedule p5 p6 s = .error .scheduleParseErr) ∧
    (∀ env obj, env.getResult = .ok obj →
      env.parse5 obj.spec.schedule = none → env.parse6 obj.spec.schedule = none →
      ReconcileB env = errOutcome .scheduleParseErr) := by
  refine ⟨?_, ?_, ?_, ?_⟩
  · intro p5 p6 s sch h
    simp [parseCronSchedule, h]
  · intro p5 p6 s sch h5 h6
    simp [parseCronSchedule, h5, h6]
  · intro p5 p6 s h5 h6
    simp [parseCronSchedule, h5, h6]
  · intro env obj hg h5 h6
    simp [ReconcileB, hg, parseCronSchedule, h5, h6]

/-- Resource carrying an expression malformed under both grammars. -/
def wObjC6 : AutoRestartPodObj :=
  { spec := { schedule := "not-a-cron", selector := "app=db", timeZone := "" },
    status := { lastRestartTime := none } }

/-- Environment where both cron grammars fail. -/
def wEnvC6 : Env :=
  { getResult := .ok wObjC6, parse5 := fun _ => none, parse6 := fun _ => none,
    loadLocation := fun _ => true, now := 3,
    resolveSelector := fun _ => .ok { id := "app=db" },
    listPods := fun _ => .ok [], deleteOk := fun _ => true,
    statusUpdateOk := true }

/-- Witness for C6: a succeeding 5-field parse is returned as is, and with both
grammars failing on `"not-a-cron"` the reconcile aborts effect-free. -/
theorem c6_witness :
    parseCronSchedule wEnvC3.parse5 wEnvC3.parse6 "*/2 * * * *" = .ok twoMinSched ∧
    parseCronSchedule wEnvC6.parse5 wEnvC6.parse6 "not-a-cron" = .error .scheduleParseErr ∧
    ReconcileB wEnvC6 = errOutcome .scheduleParseErr :=
  ⟨c6_parse_fallback_and_error.1 wEnvC3.parse5 wEnvC3.parse6 _ _ rfl,
   c6_parse_fallback_and_error.2.2.1 wEnvC6.parse5 wEnvC6.parse6 _ rfl rfl,
   c6_parse_fallback_and_error.2.2.2 wEnvC6 wObjC6 rfl rfl rfl⟩

/-- A failing parse makes the part_000 reconcile abort with that error. -/
theorem ReconcileB_parse_error (env : Env) (obj : AutoRestartPodObj) (e : Err)
    (hget : env.getResult = .ok obj)
    (hparse : parseCronSchedule env.parse5 env.parse6 obj.spec.schedule = .error e) :
    ReconcileB env = errOutcome e := by
  simp [ReconcileB, hget, hparse]

/-- A failing zone resolution makes the part_000 reconcile abort. -/
theorem ReconcileB_tz_error (env : Env) (obj : AutoRestartPodObj)
    (schedule : Schedule)
    (hget : env.getResult = .ok obj)
    (hparse : parseCronSchedule env.parse5 env.parse6 obj.spec.schedule = .ok schedule)
    (htzb : ((obj.spec.timeZone != "") && !env.loadLocation obj.spec.timeZone) = true) :
    ReconcileB env = errOutcome .timeZoneErr := by
  simp [ReconcileB, hget, hparse, htzb]

/-- A false time-zone guard means the zone was empty or resolvable. -/
theorem tz_ok_of_guard_false (obj : AutoRestartPodObj) (env : Env)
    (h : ((obj.spec.timeZone != "") && !env.loadLocation obj.spec.timeZone) = false) :
    obj.spec.timeZone = "" ∨ env.loadLocation obj.spec.timeZone = true := by
  rcases Bool.eq_false_or_eq_true (obj.spec.timeZone != "") with h1 | h1
  · rcases Bool.eq_false_or_eq_true (env.loadLocation obj.spec.timeZone) with h2 | h2
    · exact Or.inr h2
    · simp [h1, h2] at h
  · exact Or.inl (by simpa using h1)

/-- Resource whose status a restart has just committed at time 100. -/
def cObjC7 : AutoRestartPodObj :=
  { spec := { schedule := "* 0/5 * * * ?", selector := "app=cache", timeZone := "" },
    status := { lastRestartTime := some 100 } }

/-- Retry environment: fresh status read back, same wall clock. -/
def cEnvC7 : Env :=
  { getResult := .ok cObjC7, parse5 := fun _ => none,
    parse6 := fun _ => some oneSecSched,
    loadLocation := fun _ => true, now := 100,
    resolveSelector := fun _ => .ok { id := "app=cache" },
    listPods := fun _ => .ok [{ name := "cache-1" }],
    deleteOk := fun _ => true, statusUpdateOk := true }

/-- Claim C7 counterexample: the previous restart has committed
`lastRestartTime = 100` and the status is re-read fresh, yet the retry decides
Restart again (it lists, deletes and commits once more): the decision never
reads `lastRestartTime`, and this schedule stays inside the sub-minute window,
refuting "the decision on retry is not Restart". -/
theorem c7_counterexample :
    cObjC7.status.lastRestartTime = some 100 ∧
    (ReconcileB cEnvC7).listed = true ∧
    (ReconcileB cEnvC7).deletesAttempted = [{ name := "cache-1" }] ∧
    (ReconcileB cEnvC7).statusCommits = [100] := by
  refine ⟨rfl, ?_, ?_, ?_⟩ <;> rfl

/-- Claim C7 amended: the restart decision is independent of the persisted
`lastRestartTime` (any two statuses give the same listing behaviour), so a
retry after a committed restart repeats the same decision; idempotence holds
exactly on the not-due branch, where with `lastRestartTime` set the reconcile
is a NoOp with requeue `nextRun - now` and an unchanged persisted status. -/
theorem c7_decision_ignores_status :
    (∀ se st st',
      (ReconcileB (mkEnv se st)).listed = (ReconcileB (mkEnv se st')).listed) ∧
    (∀ se t schedule,
      parseCronSchedule se.parse5 se.parse6 se.spec.schedule = .ok schedule →
      (se.spec.timeZone = "" ∨ se.loadLocation se.spec.timeZone = true) →
      needsRestart schedule se.now = false →
      ReconcileB (mkEnv se (some t)) =
        { result := .ok (schedule.next se.now - se.now), listed := false,
          deletesAttempted := [], deletesSucceeded := [],
          statusCommits := [] } ∧
      stepB se (some t) = some t) := by
  constructor
  · intro se st st'
    rcases hp : parseCronSchedule se.parse5 se.parse6 se.spec.schedule with e | schedule
    · rw [ReconcileB_parse_error (mkEnv se st) _ e rfl hp,
        ReconcileB_parse_error (mkEnv se st') _ e rfl hp]
    · rcases Bool.eq_false_or_eq_true
          ((se.spec.timeZone != "") && !se.loadLocation se.spec.timeZone) with htzb | htzb
      · rw [ReconcileB_tz_error (mkEnv se st) _ schedule rfl hp htzb,
          ReconcileB_tz_error (mkEnv se st') _ schedule rfl hp htzb]
      · have htz := tz_ok_of_guard_false
          { spec := se.spec, status := { lastRestartTime := st } } (mkEnv se st) htzb
        have htz' : se.spec.timeZone = "" ∨ se.loadLocation se.spec.timeZone = true := htz
        rw [ReconcileB_eq (mkEnv se st) _ schedule rfl hp htz',
          ReconcileB_eq (mkEnv se st') _ schedule rfl hp htz']
        rcases Bool.eq_false_or_eq_true (needsRestart schedule se.now) with hnr | hnr
        · simp [mkEnv, hnr]
        · rcases Bool.eq_false_or_eq_true se.statusUpdateOk with hu | hu <;>
            cases st <;> cases st' <;> simp [mkEnv, hnr, hu, errOutcome]
  · intro se t schedule hp htz hnr
    have hB : ReconcileB (mkEnv se (some t)) =
        { result := .ok (schedule.next se.now - se.now), listed := false,
          deletesAttempted := [], deletesSucceeded := [],
          statusCommits := [] } := by
      rw [ReconcileB_eq (mkEnv se (some t))
        { spec := se.spec, status := { lastRestartTime := some t } } schedule rfl hp htz]
      simp [mkEnv, hnr]
    exact ⟨hB, by simp [stepB, hB]⟩

/-- Step data for the C7 witness: schedule two minutes out, status set. -/
def wStepC7 : StepEnv :=
  { spec := { schedule := "*/2 * * * *", selector := "app=cache", timeZone := "" },
    parse5 := fun _ => some twoMinSched, parse6 := fun _ => none,
    loadLocation := fun _ => true, now := 200,
    resolveSelector := fun _ => .ok { id := "app=cache" },
    listPods := fun _ => .ok [], deleteOk := fun _ => true,
    statusUpdateOk := true }

/-- Witness for the amended C7 at concrete inputs: the listing behaviour is
status-independent, and the not-due retry with a set status is a NoOp keeping
the status. -/
theorem c7_witness :
    ((ReconcileB (mkEnv wStepC7 none)).listed =
      (ReconcileB (mkEnv wStepC7 (some 100))).listed) ∧
    (ReconcileB (mkEnv wStepC7 (some 100)) =
      { result := .ok (twoMinSched.next 200 - 200), listed := false,
        deletesAttempted := [], deletesSucceeded := [],
        statusCommits := [] } ∧
      stepB wStepC7 (some 100) = some 100) :=
  ⟨c7_decision_ignores_status.1 wStepC7 none (some 100),
   c7_decision_ignores_status.2 wStepC7 100 twoMinSched rfl (Or.inl rfl) (by decide)⟩

/-- Claim C8: on the part_000 restart path with an acknowledged status write
and a successful listing, every listed pod is attempted for deletion no matter
which deletions the client rejects, the status commit stands, and the
reconciliation still succeeds with the next-run requeue. -/
theorem c8_best_effort_deletion (env : Env) (obj : AutoRestartPodObj)
    (schedule : Schedule) (pods : List Pod)
    (hget : env.getResult = .ok obj)
    (hparse : parseCronSchedule env.parse5 env.parse6 obj.spec.schedule = .ok schedule)
    (htz : obj.spec.timeZone = "" ∨ env.loadLocation obj.spec.timeZone = true)
    (hnr : needsRestart schedule env.now = true)
    (hupd : env.statusUpdateOk = true)
    (hlist : env.listPods (env.resolveSelector obj.spec.selector).toOption = .ok pods) :
    (ReconcileB env).deletesAttempted = pods ∧
    (ReconcileB env).deletesSucceeded = pods.filter env.deleteOk ∧
    (ReconcileB env).statusCommits = [env.now] ∧
    (ReconcileB env).result = .ok (schedule.next env.now - env.now) := by
  rw [ReconcileB_eq env obj schedule hget hparse htz]
  simp [hnr, hupd, hlist]

/-- Three matched pods. -/
def wPods : List Pod := [{ name := "web-1" }, { name := "web-2" }, { name := "web-3" }]

/-- Resource for the C8 witness. -/
def wObjC8 : AutoRestartPodObj :=
  { spec := { schedule := "* * * * * *", selector := "app=web", timeZone := "" },
    status := { lastRestartTime := some 0 } }

/-- Environment where the deletion of `web-2` is rejected. -/
def wEnvC8 : Env :=
  { getResult := .ok wObjC8, parse5 := fun _ => none,
    parse6 := fun _ => some oneSecSched,
    loadLocation := fun _ => true, now := 0,
    resolveSelector := fun _ => .ok { id := "app=web" },
    listPods := fun _ => .ok wPods,
    deleteOk := fun p => !(p.name == "web-2"), statusUpdateOk := true }

/-- Witness for C8: one of three pods fails deletion, all three are attempted,
the other two succeed, the status commit stands and the call succeeds. -/
theorem c8_witness :
    (ReconcileB wEnvC8).deletesAttempted = wPods ∧
    (ReconcileB wEnvC8).deletesSucceeded = [{ name := "web-1" }, { name := "web-3" }] ∧
    (ReconcileB wEnvC8).statusCommits = [0] ∧
    (ReconcileB wEnvC8).result = .ok 1000000000 := by
  obtain ⟨h1, h2, h3, h4⟩ := c8_best_effort_deletion wEnvC8 wObjC8 oneSecSched wPods
    rfl rfl (Or.inl rfl) (by decide) rfl rfl
  exact ⟨h1, by rw [h2]; rfl, h3, by rw [h4]; rfl⟩

/-- One part_000 reconciliation commits either nothing or exactly one status
write carrying the current evaluation time. -/
theorem ReconcileB_statusCommits_cases (env : Env) :
    (ReconcileB env).statusCommits = [] ∨
    (ReconcileB env).statusCommits = [env.now] := by
  unfold ReconcileB
  repeat' split
  all_goals simp [errOutcome]

/-- One step either keeps the persisted status or writes the current time. -/
theorem stepB_self_or_now (se : StepEnv) (st : Option Timestamp) :
    stepB se st = st ∨ stepB se st = some se.now := by
  unfold stepB
  rcases ReconcileB_statusCommits_cases (mkEnv se st) with h | h <;> rw [h]
  · exact Or.inl rfl
  · exact Or.inr rfl

/-- The trace of one run starts with its starting status. -/
theorem statusTrace_head (es : List StepEnv) (st : Option Timestamp) :
    (statusTrace es st).head? = some st := by
  cases es <;> rfl

/-- Monotonicity of the persisted-status trace, by induction on the steps:
needs the wall clocks sorted and the starting status below every step clock. -/
theorem statusTrace_chain (envs : List StepEnv) :
    ∀ st : Option Timestamp,
      (envs.map StepEnv.now).Pairwise (· ≤ ·) →
      (∀ t, st = some t → ∀ se ∈ envs, t ≤ se.now) →
      List.Chain' statusLE (statusTrace envs st) := by
  induction envs with
  | nil =>
    intro st _ _
    simp [statusTrace]
  | cons e es ih =>
    intro st hmono hbound
    rw [List.map_cons, List.pairwise_cons] at hmono
    have hstep : statusLE st (stepB e st) := by
      rcases stepB_self_or_now e st with h | h
      · rw [h]
        exact statusLE_refl st
      · rw [h]
        cases st with
        | none => trivial
        | some t => exact hbound t rfl e (List.mem_cons_self e es)
    have hbound' : ∀ t, stepB e st = some t → ∀ se ∈ es, t ≤ se.now := by
      intro t ht se hse
      rcases stepB_self_or_now e st with h | h
      · exact hbound t (h ▸ ht) se (List.mem_cons_of_mem e hse)
      · obtain rfl : t = e.now := by
          rw [h] at ht
          exact (Option.some.inj ht).symm
        exact hmono.1 se.now (List.mem_map_of_mem StepEnv.now hse)
    rw [statusTrace, List.chain'_cons']
    constructor
    · intro b hb
      rw [statusTrace_head] at hb
      obtain rfl : stepB e st = b := by simpa using hb
      exact hstep
    · exact ih (stepB e st) hmono.2 hbound'

/-- Claim C9: across any sequence of part_000 reconciliations of one resource
whose wall clocks are non-decreasing, starting from the unset status of a fresh
resource, the persisted `lastRestartTime` trace is monotonically non-decreasing
(and never becomes unset again); moreover every committed status write carries
the evaluation time `now` of its own step, never an earlier value. -/
theorem c9_lastRestartTime_monotone (envs : List StepEnv)
    (hmono : (envs.map StepEnv.now).Pairwise (· ≤ ·)) :
    List.Chain' statusLE (statusTrace envs none) ∧
    ∀ se st t, t ∈ (ReconcileB (mkEnv se st)).statusCommits → t = se.now := by
  constructor
  · exact statusTrace_chain envs none hmono (fun t h => by cases h)
  · intro se st t ht
    rcases ReconcileB_statusCommits_cases (mkEnv se st) with h | h <;> rw [h] at ht
    · cases ht
    · simpa [mkEnv] using ht

/-- First step for the C9 witness, wall clock 10. -/
def wStepC9a : StepEnv :=
  { spec := { schedule := "* * * * * *", selector := "app=job", timeZone := "" },
    parse5 := fun _ => none, parse6 := fun _ => some oneSecSched,
    loadLocation := fun _ => true, now := 10,
    resolveSelector := fun _ => .ok { id := "app=job" },
    listPods := fun _ => .ok [], deleteOk := fun _ => true,
    statusUpdateOk := true }

/-- Second step for the C9 witness, wall clock 25. -/
def wStepC9b : StepEnv :=
  { wStepC9a with now := 25 }

/-- Witness for C9 on a concrete two-step run with clocks 10 then 25. -/
theorem c9_witness :
    List.Chain' statusLE (statusTrace [wStepC9a, wStepC9b] none) ∧
    ∀ se st t, t ∈ (ReconcileB (mkEnv se st)).statusCommits → t = se.now :=
  c9_lastRestartTime_monotone [wStepC9a, wStepC9b]
    (by simp [wStepC9a, wStepC9b, List.pairwise_cons])

/-- A schedule whose next activation is thirty seconds ahead. -/
def sched30 : Schedule where
  next := fun t => t + 30000000000

/-- Resource for the C10 counterexample. -/
def cObjC10 : AutoRestartPodObj :=
  { spec := { schedule := "*/1 * * * *", selector := "app=fe", timeZone := "" },
    status := { lastRestartTime := some 5 } }

/-- Environment with the next run thirty seconds away, one matching pod, every
collaborator call acknowledged. -/
def cEnvC10 : Env :=
  { getResult := .ok cObjC10, parse5 := fun _ => some sched30,
    parse6 := fun _ => none,
    loadLocation := fun _ => true, now := 0,
    resolveSelector := fun _ => .ok { id := "app=fe" },
    listPods := fun _ => .ok [{ name := "fe-1" }],
    deleteOk := fun _ => true, statusUpdateOk := true }

/-- Claim C10 counterexample: on one and the same input the two Reconcile
implementations disagree — the internal/controller variant performs no restart
(no listing, no deletion, no status write, requeue thirty seconds) while the
part_000 variant restarts (lists, deletes the pod and commits the status), so
the two are not equivalent. -/
theorem c10_counterexample :
    (ReconcileA cEnvC10).listed = false ∧
    (ReconcileA cEnvC10).deletesAttempted = [] ∧
    (ReconcileA cEnvC10).statusCommits = [] ∧
    (ReconcileA cEnvC10).result = .ok 30000000000 ∧
    (ReconcileB cEnvC10).listed = true ∧
    (ReconcileB cEnvC10).deletesAttempted = [{ name := "fe-1" }] ∧
    (ReconcileB cEnvC10).statusCommits = [0] := by
  refine ⟨?_, ?_, ?_, ?_, ?_, ?_, ?_⟩ <;> rfl

/-- Claim C10 amended: the two implementations are not equivalent — whenever
the fetch, parse and zone succeed, the status write is acknowledged and the
next run is strictly in the future but less than one minute away, the
internal/controller variant requeues with no side effect while the part_000
variant takes the restart path (lists and commits the status). -/
theorem c10_variants_differ (env : Env) (obj : AutoRestartPodObj)
    (schedule : Schedule)
    (hget : env.getResult = .ok obj)
    (hparse : parseCronSchedule env.parse5 env.parse6 obj.spec.schedule = .ok schedule)
    (htz : obj.spec.timeZone = "" ∨ env.loadLocation obj.spec.timeZone = true)
    (hfut : env.now < schedule.next env.now)
    (hclose : schedule.next env.now - env.now < timeMinute)
    (hupd : env.statusUpdateOk = true) :
    ReconcileA env =
      { result := .ok (schedule.next env.now - env.now), listed := false,
        deletesAttempted := [], deletesSucceeded := [], statusCommits := [] } ∧
    (ReconcileB env).listed = true ∧
    (ReconcileB env).statusCommits = [env.now] := by
  have hnr : needsRestart schedule env.now = true :=
    (needsRestart_iff schedule env.now).mpr (Or.inr hclose)
  have hA : ReconcileA env =
      { result := .ok (schedule.next env.now - env.now), listed := false,
        deletesAttempted := [], deletesSucceeded := [], statusCommits := [] } := by
    rw [ReconcileA_eq env obj schedule hget hparse htz]
    rw [if_pos hfut]
  refine ⟨hA, ?_, ?_⟩
  all_goals
    rw [ReconcileB_eq env obj schedule hget hparse htz]
    rcases hl : env.listPods (env.resolveSelector obj.spec.selector).toOption with e | pods <;>
      simp [hnr, hupd, hl]

/-- Witness for the amended C10 at the concrete thirty-second environment. -/
theorem c10_witness :
    ReconcileA cEnvC10 =
      { result := .ok 30000000000, listed := false, deletesAttempted := [],
        deletesSucceeded := [], statusCommits := [] } ∧
    (ReconcileB cEnvC10).listed = true ∧
    (ReconcileB cEnvC10).statusCommits = [0] := by
  obtain ⟨h1, h2, h3⟩ := c10_variants_differ cEnvC10 cObjC10 sched30 rfl rfl
    (Or.inl rfl) (by decide) (by decide) rfl
  exact ⟨by rw [h1]; rfl, h2, h3⟩

end AutoRestart
